import Mathlib

/-!
# OpenCV demo (`src/main.cpp`): a shallow embedding

The program is one translation unit: `WriteMemoryCallback`, `downloadImage`
and `main`.  The embedding follows the source statement by statement.

* `size_t` values are natural numbers reduced modulo `2 ^ 64`.
* `std::string` is `String`; `std::string::find` is the search `find`.
* a `cv::Mat` is its header (`rows`, `cols`, `channels`) together with the
  pixel accessor `px row col channel`.
* the process environment, the file system, the network and the display are
  inputs of the run, gathered in `World`.
* the routines of the vision library that the source only calls are the
  fields of `Lib`; routines that write into their argument in place return
  new pixel data for the same header.
* file writes, reads, downloads and window calls are recorded as `Event`s.
  Text printed on standard output is not modelled.
-/

namespace OpencvDemo

/-! ## Strings and `size_t` -/

/-- Number of values of `size_t`. -/
def SIZE_RANGE : Nat := 2 ^ 64

/-- The value `std::string::npos`. -/
def npos : Nat := 2 ^ 64 - 1

/-- Search of `pat` in `s`, where `s` is the part of the string that starts
at index `pos`: the index of the first occurrence, `npos` when there is none. -/
def findFrom (pat : List Char) : List Char → Nat → Nat
  | [], pos => if pat.isPrefixOf [] then pos else npos
  | c :: cs, pos => if pat.isPrefixOf (c :: cs) then pos else findFrom pat cs (pos + 1)

/-- The call `s.find(pat)` of `std::string`. -/
def find (s pat : String) : Nat := findFrom pat.data s.data 0

/-! ## Environment -/

/-- The call `getenv(name)`: the value of the first entry called `name`,
`none` for the null pointer. -/
def getenv (env : List (String × String)) (name : String) : Option String :=
  match env with
  | [] => none
  | (k, v) :: rest => if k = name then some v else getenv rest name

/-! ## Argument parsing (`main`, lines 59-75) -/

/-- The two locals that argument parsing sets. -/
structure Config where
  disable_display : Bool
  image_input : String
deriving DecidableEq, Repr

/-- Lines 60-63: the display is disabled when one of the three variables is set. -/
def envDisable (env : List (String × String)) : Bool :=
  (getenv env "CI").isSome || (getenv env "GITHUB_ACTIONS").isSome
    || (getenv env "DISABLE_DISPLAY").isSome

/-- One iteration of the loop of lines 67-75. -/
def parseArg (st : Config) (arg : String) : Config :=
  if arg = "--no-display" ∨ arg = "--ci" then
    { st with disable_display := true }
  else if find arg "--" ≠ 0 then
    { st with image_input := arg }
  else st

/-- Lines 59-75: `argv[0]` is skipped, the other arguments are visited in order. -/
def parseArgs (env : List (String × String)) (argv : List String) : Config :=
  (argv.drop 1).foldl parseArg
    { disable_display := envDisable env, image_input := "" }

/-- Whether an argument is one of the two flags of line 69. -/
def isDisplayFlag (arg : String) : Bool := arg = "--no-display" ∨ arg = "--ci"

/-- Line 79: the test that sends the input to the downloader. -/
def isURL (image_input : String) : Bool :=
  find image_input "http://" == 0 || find image_input "https://" == 0

/-! ## Rasters -/

/-- A `cv::Mat` of 8-bit depth: the header and the pixel accessor
`px row col channel`. -/
structure Mat where
  rows : Nat
  cols : Nat
  channels : Nat
  px : Nat → Nat → Nat → Nat

/-- The default constructor `cv::Mat()`. -/
def Mat.default : Mat := { rows := 0, cols := 0, channels := 1, px := fun _ _ _ => 0 }

/-- The method `Mat::total()`. -/
def Mat.total (m : Mat) : Nat := m.rows * m.cols

/-- The method `Mat::empty()`: no element. -/
def Mat.empty (m : Mat) : Bool := m.total == 0

/-- The call `cv::Mat::zeros(rows, cols, CV_8UC3)`. -/
def Mat.zeros (rows cols channels : Nat) : Mat :=
  { rows := rows, cols := cols, channels := channels, px := fun _ _ _ => 0 }

/-- The method `Mat::clone()`: a deep copy, the same value. -/
def Mat.clone (m : Mat) : Mat := m

/-- The same header with new pixel data: the effect of a routine that draws
into its argument in place. -/
def Mat.withData (m : Mat) (d : Nat → Nat → Nat → Nat) : Mat := { m with px := d }

/-- A `cv::Scalar`: four components, those not given are zero. -/
structure Scalar where
  v0 : Nat
  v1 : Nat
  v2 : Nat
  v3 : Nat := 0
deriving DecidableEq, Repr

/-- Component `k` of a scalar. -/
def Scalar.get (s : Scalar) : Nat → Nat
  | 0 => s.v0
  | 1 => s.v1
  | 2 => s.v2
  | _ => s.v3

/-- A `cv::Point`. -/
structure Point where
  x : Int
  y : Int
deriving DecidableEq, Repr

/-- The conversion codes the program passes to `cv::cvtColor`. -/
inductive ColorCode
  | BGR2GRAY
  | BGR2HSV
  | GRAY2BGR
deriving DecidableEq, Repr

/-- The routines of the vision library that the program calls and whose
bodies are outside the repository.  `rectangle`, `circle`, `ellipse`,
`drawContours` and `putText` draw in place: they return the new pixel data
of the raster they were given. -/
structure Lib where
  imdecode : List Nat → Mat
  cvtColor : Mat → ColorCode → Mat
  Canny : Mat → Nat → Nat → Mat
  findContours : Mat → List (List Point)
  rectangle : Mat → Point → Point → Scalar → Int → Nat → Nat → Nat → Nat
  circle : Mat → Point → Nat → Scalar → Int → Nat → Nat → Nat → Nat
  ellipse : Mat → Point → Nat × Nat → Nat → Nat → Nat → Scalar → Int → Nat → Nat → Nat → Nat
  drawContours : Mat → List (List Point) → Int → Scalar → Int → Nat → Nat → Nat → Nat
  putText : Mat → String → Point → Scalar → Int → Nat → Nat → Nat → Nat

/-- Modelled from the spec: `cv::inRange` is a library routine outside the
repository.  The result is a one-channel mask of the size of `src` whose
element is 255 where every channel of the source pixel lies between the
bounds, both included, and 0 elsewhere. -/
def inRange (src : Mat) (lowerb upperb : Scalar) : Mat :=
  { rows := src.rows, cols := src.cols, channels := 1,
    px := fun r c _ =>
      if (List.range src.channels).all
          (fun k => decide (lowerb.get k ≤ src.px r c k) && decide (src.px r c k ≤ upperb.get k))
      then 255 else 0 }

/-- Modelled from the spec: the operator `|` on two rasters is a library
routine outside the repository; the element-wise bitwise OR. -/
def bitwise_or (a b : Mat) : Mat :=
  { rows := a.rows, cols := a.cols, channels := a.channels,
    px := fun r c k => a.px r c k ||| b.px r c k }

/-- Modelled from the spec: `src.copyTo(dst, mask)` is a library routine
outside the repository.  A destination of another size or type is allocated
anew and filled with zeros; then the pixels where the mask is not zero are
copied from the source. -/
def copyTo (src dst mask : Mat) : Mat :=
  let keep : Bool := decide (dst.rows = src.rows) && decide (dst.cols = src.cols)
    && decide (dst.channels = src.channels)
  { rows := src.rows, cols := src.cols, channels := src.channels,
    px := fun r c k =>
      if mask.px r c 0 ≠ 0 then src.px r c k
      else if keep then dst.px r c k else 0 }

/-- Modelled from the spec: `cv::hconcat` is a library routine outside the
repository; the second raster is placed to the right of the first. -/
def hconcat (a b : Mat) : Mat :=
  { rows := a.rows, cols := a.cols + b.cols, channels := a.channels,
    px := fun r c k => if c < a.cols then a.px r c k else b.px r (c - a.cols) k }

/-- Modelled from the spec: `cv::vconcat` is a library routine outside the
repository; the second raster is placed below the first. -/
def vconcat (a b : Mat) : Mat :=
  { rows := a.rows + b.rows, cols := a.cols, channels := a.channels,
    px := fun r c k => if r < a.rows then a.px r c k else b.px (r - a.rows) c k }

/-! ## The download buffer (lines 7-24) -/

/-- The struct `MemoryStruct`: the byte vector and the separate counter. -/
structure MemoryStruct where
  memory : List Nat
  size : Nat
deriving DecidableEq, Repr

/-- The constructor `MemoryStruct()`: an empty vector, `size(0)`. -/
def MemoryStruct.new : MemoryStruct := { memory := [], size := 0 }

/-- The method `vector::resize(n)`: cut to `n` elements or pad with zeros. -/
def resize (v : List Nat) (n : Nat) : List Nat :=
  v.take n ++ List.replicate (n - v.length) 0

/-- The call `memcpy(dst.data() + off, src, n)`: `n` bytes of `src` replace
the bytes of `dst` from offset `off` on. -/
def memcpy (dst : List Nat) (off : Nat) (src : List Nat) (n : Nat) : List Nat :=
  dst.take off ++ src.take n ++ dst.drop (off + n)

/-- The function `WriteMemoryCallback`; the result is the returned count and
the buffer after the call. -/
def WriteMemoryCallback (contents : List Nat) (size nmemb : Nat) (mem : MemoryStruct) :
    Nat × MemoryStruct :=
  let realsize := (size * nmemb) % SIZE_RANGE
  let old_size := mem.memory.length % SIZE_RANGE
  let resized := resize mem.memory ((old_size + realsize) % SIZE_RANGE)
  let memory := memcpy resized old_size contents realsize
  (realsize, { memory := memory, size := (mem.size + realsize) % SIZE_RANGE })

/-- One delivery of the transport library to the write callback: the bytes
behind `contents` and the two factors of their count. -/
structure Chunk where
  contents : List Nat
  size : Nat
  nmemb : Nat
deriving DecidableEq, Repr

/-- The callback applied to the chunks in arrival order: the returned counts
and the final buffer. -/
def deliver : List Chunk → MemoryStruct → List Nat × MemoryStruct
  | [], mem => ([], mem)
  | c :: cs, mem =>
    let r := WriteMemoryCallback c.contents c.size c.nmemb mem
    let rest := deliver cs r.2
    (r.1 :: rest.1, rest.2)

/-- A chunk as the transport library hands it over: `contents` holds
`size * nmemb` bytes and the product does not overflow `size_t`. -/
def Chunk.wellFormed (c : Chunk) : Prop :=
  c.contents.length = c.size * c.nmemb ∧ c.size * c.nmemb < SIZE_RANGE

instance (c : Chunk) : Decidable c.wellFormed := by
  unfold Chunk.wellFormed; infer_instance

/-- The bytes of all chunks in arrival order. -/
def body (cs : List Chunk) : List Nat := (cs.map Chunk.contents).flatten

/-! ## The downloader (lines 26-53) -/

/-- The value `CURLE_OK`. -/
def CURLE_OK : Nat := 0

/-- What one call of `curl_easy_perform` does: the chunks it hands to the
write callback, then the code it returns. -/
structure Transfer where
  chunks : List Chunk
  res : Nat
deriving DecidableEq, Repr

/-- The inputs of a run that come from outside the process. -/
structure World where
  env : List (String × String)
  curl_easy_init : Bool
  curl_easy_perform : String → Transfer
  imread : String → Mat
  imshow : Except String Unit
  waitKey : Except String Unit
  destroyAllWindows : Except String Unit

/-- Lines 29-45 of `downloadImage`: the result code and the buffer after the
transfer.  Without a handle nothing is transferred and `res` keeps no value
(`none`). -/
def transfer (w : World) (url : String) : Option Nat × MemoryStruct :=
  let chunk := MemoryStruct.new
  if w.curl_easy_init then
    let t := w.curl_easy_perform url
    (some t.res, (deliver t.chunks chunk).2)
  else (none, chunk)

/-- The function `downloadImage`: the result code is not read, the buffer is
decoded when its counter is positive. -/
def downloadImage (lib : Lib) (w : World) (url : String) : Mat :=
  let (_res, chunk) := transfer w url
  if chunk.size > 0 then lib.imdecode chunk.memory
  else Mat.default

/-! ## The program (`main`, lines 55-186) -/

/-- The calls of `main` that reach outside the process. -/
inductive Event
  | downloadImage (url : String)
  | imread (path : String)
  | imwrite (file : String) (img : Mat)
  | imshow (window : String) (img : Mat)
  | waitKey (delay : Int)
  | destroyAllWindows

/-- The file an event writes, if it writes one. -/
def Event.written : Event → Option String
  | .imwrite file _ => some file
  | _ => none

/-- Whether an event is a download. -/
def Event.isDownload : Event → Bool
  | .downloadImage _ => true
  | _ => false

/-- Whether an event is a local file read. -/
def Event.isRead : Event → Bool
  | .imread _ => true
  | _ => false

/-- Whether an event is the opening of the result window. -/
def Event.isShow : Event → Bool
  | .imshow _ _ => true
  | _ => false

/-- Lines 77-93: the raster loaded from the input string, with the calls made. -/
def loadImage (lib : Lib) (w : World) (image_input : String) : List Event × Mat :=
  if image_input ≠ "" then
    if isURL image_input then
      let image := downloadImage lib w image_input
      if !image.empty then
        ([Event.downloadImage image_input, Event.imwrite "downloaded_image.jpg" image], image)
      else ([Event.downloadImage image_input], image)
    else
      ([Event.imread image_input], w.imread image_input)
  else ([], Mat.default)

/-- Lines 99-102: the canvas and the three filled shapes. -/
def synthetic (lib : Lib) : Mat :=
  let image0 := Mat.zeros 400 600 3
  let image1 := image0.withData
    (lib.rectangle image0 ⟨50, 50⟩ ⟨200, 150⟩ { v0 := 0, v1 := 255, v2 := 0 } (-1))
  let image2 := image1.withData
    (lib.circle image1 ⟨400, 200⟩ 80 { v0 := 255, v1 := 0, v2 := 0 } (-1))
  image2.withData
    (lib.ellipse image2 ⟨300, 300⟩ (100, 50) 45 0 360 { v0 := 0, v1 := 0, v2 := 255 } (-1))

/-- Lines 95-106: an empty raster is replaced by the synthetic one, which is
also written to disk. -/
def resolveImage (lib : Lib) (image : Mat) : List Event × Mat :=
  if image.empty then
    ([Event.imwrite "synthetic_input.jpg" (synthetic lib)], synthetic lib)
  else ([], image)

/-- The rasters that lines 111-160 compute. -/
structure Panels where
  gray : Mat
  edges : Mat
  contours : List (List Point)
  contour_image : Mat
  hsv : Mat
  blue_mask : Mat
  green_mask : Mat
  color_mask : Mat
  color_result : Mat
  edges_color : Mat
  mask_color : Mat
  top_row : Mat
  bottom_row : Mat
  final_result : Mat

/-- The white colour of the labels. -/
def white : Scalar := { v0 := 255, v1 := 255, v2 := 255 }

/-- Lines 156-160: the four labels, drawn in place one after the other. -/
def addLabels (lib : Lib) (image composed : Mat) : Mat :=
  let f1 := composed.withData (lib.putText composed "Original" ⟨10, 30⟩ white 2)
  let f2 := f1.withData (lib.putText f1 "Edges" ⟨image.cols + 10, 30⟩ white 2)
  let f3 := f2.withData (lib.putText f2 "Contours" ⟨10, image.rows + 60⟩ white 2)
  f3.withData (lib.putText f3 "Color Filter" ⟨image.cols + 10, image.rows + 60⟩ white 2)

/-- Lines 111-160: the processing pipeline and the composition. -/
def process (lib : Lib) (image : Mat) : Panels :=
  let gray := lib.cvtColor image ColorCode.BGR2GRAY
  let edges := lib.Canny gray 50 150
  let contours := lib.findContours edges.clone
  let contour_image0 := image.clone
  let contour_image := contour_image0.withData
    (lib.drawContours contour_image0 contours (-1) { v0 := 0, v1 := 255, v2 := 255 } 2)
  let hsv := lib.cvtColor image ColorCode.BGR2HSV
  let blue_mask := inRange hsv { v0 := 100, v1 := 50, v2 := 50 } { v0 := 130, v1 := 255, v2 := 255 }
  let green_mask := inRange hsv { v0 := 40, v1 := 50, v2 := 50 } { v0 := 80, v1 := 255, v2 := 255 }
  let color_mask := bitwise_or blue_mask green_mask
  let color_result := copyTo image Mat.default color_mask
  let edges_color := lib.cvtColor edges ColorCode.GRAY2BGR
  let mask_color := lib.cvtColor color_mask ColorCode.GRAY2BGR
  let top_row := hconcat image edges_color
  let bottom_row := hconcat contour_image color_result
  let composed := vconcat top_row bottom_row
  { gray := gray, edges := edges, contours := contours, contour_image := contour_image,
    hsv := hsv, blue_mask := blue_mask, green_mask := green_mask, color_mask := color_mask,
    color_result := color_result, edges_color := edges_color, mask_color := mask_color,
    top_row := top_row, bottom_row := bottom_row,
    final_result := addLabels lib image composed }

/-- The title of the result window. -/
def windowName : String := "OpenCV Demo - Multiple Techniques"

/-- Lines 173-176, the body of the `try` block: the calls made and whether
one of them raised a `cv::Exception`. -/
def displayBody (w : World) (final_result : Mat) : List Event × Except String Unit :=
  match w.imshow with
  | .error e => ([Event.imshow windowName final_result], .error e)
  | .ok _ =>
    match w.waitKey with
    | .error e => ([Event.imshow windowName final_result, Event.waitKey 0], .error e)
    | .ok _ =>
      ([Event.imshow windowName final_result, Event.waitKey 0, Event.destroyAllWindows],
        w.destroyAllWindows)

/-- Lines 170-183: the display attempt inside `try`, the handler of
`cv::Exception`, and the branch taken when the display is disabled.  The
second component is `error` when an exception leaves the statement. -/
def present (w : World) (disable_display : Bool) (final_result : Mat) :
    List Event × Except String Unit :=
  if !disable_display then
    match displayBody w final_result with
    | (ev, .ok _) => (ev, .ok ())
    | (ev, .error _) => (ev, .ok ())
  else ([], .ok ())

/-- What a run of `main` leaves behind. -/
structure Run where
  config : Config
  loaded : Mat
  image : Mat
  panels : Panels
  events : List Event
  exit : Except String Int

/-- The function `main`.  The field `exit` is `ok code` when `main` returns
`code` and `error` when an exception leaves it. -/
def main (lib : Lib) (w : World) (argv : List String) : Run :=
  let config := parseArgs w.env argv
  let load := loadImage lib w config.image_input
  let resolved := resolveImage lib load.2
  let panels := process lib resolved.2
  let save := [Event.imwrite "opencv_demo_result.jpg" panels.final_result]
  let shown := present w config.disable_display panels.final_result
  { config := config, loaded := load.2, image := resolved.2, panels := panels,
    events := load.1 ++ resolved.1 ++ save ++ shown.1,
    exit := match shown.2 with
      | .ok _ => .ok 0
      | .error e => .error e }

/-- The names of the files a run writes, in order. -/
def Run.filesWritten (r : Run) : List String := r.events.filterMap Event.written

/-- The number of downloads of a run. -/
def Run.downloads (r : Run) : Nat := r.events.countP Event.isDownload

/-- The number of local file reads of a run. -/
def Run.reads (r : Run) : Nat := r.events.countP Event.isRead

/-- Whether a run opens the result window. -/
def Run.displayAttempted (r : Run) : Bool := r.events.any Event.isShow

/-! ## Sample inputs -/

/-- The bytes of a binary PPM file of one pixel: the header `P6 1 1 255` and
the RGB triple 10, 20, 200. -/
def ppmBytes : List Nat := [80, 54, 10, 49, 32, 49, 10, 50, 53, 53, 10, 10, 20, 200]

/-- A library instance for evaluation: each conversion keeps the header of
its input, the detectors find nothing, drawing leaves the pixels as they
are, and the decoder knows one file, a binary PPM of one pixel. -/
def sampleLib : Lib where
  imdecode := fun bytes =>
    if bytes = ppmBytes then
      { rows := 1, cols := 1, channels := 3, px := fun _ _ k => [200, 20, 10].getD k 0 }
    else Mat.default
  cvtColor := fun m code =>
    match code with
    | .BGR2GRAY => { m with channels := 1, px := fun r c _ => m.px r c 1 }
    | .BGR2HSV => m
    | .GRAY2BGR => { m with channels := 3, px := fun r c _ => m.px r c 0 }
  Canny := fun m _ _ => { m with px := fun _ _ _ => 0 }
  findContours := fun _ => []
  rectangle := fun m _ _ _ _ => m.px
  circle := fun m _ _ _ _ => m.px
  ellipse := fun m _ _ _ _ _ _ _ => m.px
  drawContours := fun m _ _ _ _ => m.px
  putText := fun m _ _ _ _ => m.px

/-- A transfer that hands over the whole file in two chunks and then fails
with `CURLE_PARTIAL_FILE` (18), as when the server announced more bytes. -/
def brokenTransfer : Transfer :=
  { chunks := [{ contents := [80, 54, 10, 49, 32, 49, 10], size := 1, nmemb := 7 },
               { contents := [50, 53, 53, 10, 10, 20, 200], size := 1, nmemb := 7 }],
    res := 18 }

/-- A colour raster of 2 rows and 3 columns. -/
def sampleImage : Mat :=
  { rows := 2, cols := 3, channels := 3, px := fun r c k => 40 * r + 10 * c + k }

/-- A world without display variables, in which every transfer is
`brokenTransfer`, every file is `sampleImage` and no display is available. -/
def sampleWorld : World where
  env := []
  curl_easy_init := true
  curl_easy_perform := fun _ => brokenTransfer
  imread := fun _ => sampleImage
  imshow := .error "no display"
  waitKey := .ok ()
  destroyAllWindows := .ok ()

/-! ## Lemmas on strings and argument parsing -/

theorem findFrom_succ_ne_zero (pat s : List Char) (pos : Nat) :
    findFrom pat s (pos + 1) ≠ 0 := by
  induction s generalizing pos with
  | nil =>
    unfold findFrom
    split
    · exact Nat.succ_ne_zero pos
    · decide
  | cons c cs ih =>
    unfold findFrom
    split
    · exact Nat.succ_ne_zero pos
    · exact ih (pos + 1)

theorem findFrom_zero_iff (pat s : List Char) :
    findFrom pat s 0 = 0 ↔ pat <+: s := by
  cases s with
  | nil =>
    unfold findFrom
    by_cases h : pat.isPrefixOf [] = true
    · simp only [h, if_true, true_iff]
      exact List.isPrefixOf_iff_prefix.mp h
    · simp only [h, if_false]
      constructor
      · intro h0; exact absurd h0 (by decide)
      · intro hp; exact absurd (List.isPrefixOf_iff_prefix.mpr hp) h
  | cons c cs =>
    unfold findFrom
    by_cases h : pat.isPrefixOf (c :: cs) = true
    · simp only [h, if_true, true_iff]
      exact List.isPrefixOf_iff_prefix.mp h
    · simp only [h, if_false]
      constructor
      · intro h0; exact absurd h0 (findFrom_succ_ne_zero pat cs 0)
      · intro hp; exact absurd (List.isPrefixOf_iff_prefix.mpr hp) h

/-- The test `s.find(pat) == 0` holds exactly when `s` starts with `pat`. -/
theorem find_eq_zero_iff (s pat : String) : find s pat = 0 ↔ pat.data <+: s.data :=
  findFrom_zero_iff pat.data s.data

theorem isURL_iff (s : String) :
    isURL s = true ↔ ("http://".data <+: s.data ∨ "https://".data <+: s.data) := by
  unfold isURL
  rw [Bool.or_eq_true, beq_iff_eq, beq_iff_eq, find_eq_zero_iff, find_eq_zero_iff]

theorem getenv_isSome_iff (env : List (String × String)) (name : String) :
    (getenv env name).isSome = true ↔ ∃ v, (name, v) ∈ env := by
  induction env with
  | nil => simp [getenv]
  | cons kv rest ih =>
    obtain ⟨k, v⟩ := kv
    unfold getenv
    by_cases hk : k = name
    · subst hk
      simp only [if_true, Option.isSome_some, true_iff]
      exact ⟨v, List.mem_cons_self _ _⟩
    · simp only [hk, if_false, ih]
      constructor
      · rintro ⟨u, hu⟩; exact ⟨u, List.mem_cons_of_mem _ hu⟩
      · rintro ⟨u, hu⟩
        rcases List.mem_cons.mp hu with h | h
        · exact absurd (congrArg Prod.fst h).symm hk
        · exact ⟨u, h⟩

theorem displayFlag_startsWith (arg : String) (h : arg = "--no-display" ∨ arg = "--ci") :
    "--".data <+: arg.data := by
  rcases h with h | h <;> subst h <;> decide

theorem parseArg_image_input (st : Config) (arg : String) :
    (parseArg st arg).image_input
      = if "--".data <+: arg.data then st.image_input else arg := by
  unfold parseArg
  by_cases hf : arg = "--no-display" ∨ arg = "--ci"
  · simp only [hf, if_true, displayFlag_startsWith arg hf]
  · simp only [hf, if_false]
    by_cases hp : "--".data <+: arg.data
    · simp only [hp, if_true, (find_eq_zero_iff arg "--").mpr hp, ne_eq, not_true_eq_false,
        if_false]
    · have : find arg "--" ≠ 0 := fun h0 => hp ((find_eq_zero_iff arg "--").mp h0)
      simp only [hp, if_false, this, ne_eq, not_false_eq_true, if_true]

theorem parseArg_disable_display (st : Config) (arg : String) :
    (parseArg st arg).disable_display = (st.disable_display || isDisplayFlag arg) := by
  unfold parseArg isDisplayFlag
  by_cases hf : arg = "--no-display" ∨ arg = "--ci"
  · simp [hf]
  · simp only [hf, if_false, decide_False, Bool.or_false]
    split <;> rfl

theorem foldl_parseArg_image_input (l : List String) (st : Config) :
    (l.foldl parseArg st).image_input
      = ((l.filter (fun a => decide (¬ "--".data <+: a.data))).getLast?).getD st.image_input := by
  induction l generalizing st with
  | nil => rfl
  | cons a l ih =>
    rw [List.foldl_cons, ih, parseArg_image_input]
    by_cases hp : "--".data <+: a.data
    · simp [hp]
    · simp [hp, List.getLast?_cons]

theorem foldl_parseArg_disable_display (l : List String) (st : Config) :
    (l.foldl parseArg st).disable_display = (st.disable_display || l.any isDisplayFlag) := by
  induction l generalizing st with
  | nil => simp
  | cons a l ih =>
    rw [List.foldl_cons, ih, parseArg_disable_display, List.any_cons, Bool.or_assoc]

/-! ## Lemmas on `main` -/

theorem main_config (lib : Lib) (w : World) (argv : List String) :
    (main lib w argv).config = parseArgs w.env argv := rfl

theorem main_loaded (lib : Lib) (w : World) (argv : List String) :
    (main lib w argv).loaded = (loadImage lib w (parseArgs w.env argv).image_input).2 := rfl

theorem main_image (lib : Lib) (w : World) (argv : List String) :
    (main lib w argv).image = (resolveImage lib (main lib w argv).loaded).2 := rfl

theorem main_panels (lib : Lib) (w : World) (argv : List String) :
    (main lib w argv).panels = process lib (main lib w argv).image := rfl

theorem main_events (lib : Lib) (w : World) (argv : List String) :
    (main lib w argv).events
      = (loadImage lib w (main lib w argv).config.image_input).1
        ++ (resolveImage lib (main lib w argv).loaded).1
        ++ [Event.imwrite "opencv_demo_result.jpg" (main lib w argv).panels.final_result]
        ++ (present w (main lib w argv).config.disable_display
              (main lib w argv).panels.final_result).1 := rfl

theorem present_ok (w : World) (d : Bool) (m : Mat) : (present w d m).2 = .ok () := by
  unfold present
  cases d with
  | true => rfl
  | false =>
    simp only [Bool.not_false, if_true]
    split <;> rfl

theorem main_exit (lib : Lib) (w : World) (argv : List String) :
    (main lib w argv).exit = .ok 0 := by
  show (match (present w _ _).2 with
    | .ok _ => (Except.ok 0 : Except String Int)
    | .error e => .error e) = .ok 0
  rw [present_ok]

theorem displayBody_events (w : World) (m : Mat) :
    ∃ rest, (displayBody w m).1 = Event.imshow windowName m :: rest
      ∧ rest.filterMap Event.written = []
      ∧ rest.countP Event.isDownload = 0 ∧ rest.countP Event.isRead = 0 := by
  unfold displayBody
  cases w.imshow with
  | error e => exact ⟨[], rfl, rfl, rfl, rfl⟩
  | ok u =>
    cases w.waitKey with
    | error e => exact ⟨[Event.waitKey 0], rfl, rfl, rfl, rfl⟩
    | ok u => exact ⟨[Event.waitKey 0, Event.destroyAllWindows], rfl, rfl, rfl, rfl⟩

theorem present_events (w : World) (d : Bool) (m : Mat) :
    (present w d m).1 = if d then [] else (displayBody w m).1 := by
  unfold present
  cases d with
  | true => rfl
  | false =>
    simp only [Bool.not_false, if_true, Bool.false_eq_true, if_false]
    split <;> simp_all

theorem present_no_io (w : World) (d : Bool) (m : Mat) :
    (present w d m).1.filterMap Event.written = []
      ∧ (present w d m).1.countP Event.isDownload = 0
      ∧ (present w d m).1.countP Event.isRead = 0 := by
  rw [present_events]
  cases d with
  | true => exact ⟨rfl, rfl, rfl⟩
  | false =>
    obtain ⟨rest, h, h1, h2, h3⟩ := displayBody_events w m
    simp only [Bool.false_eq_true, if_false, h]
    refine ⟨?_, ?_, ?_⟩
    · simpa [Event.written] using h1
    · simpa [Event.isDownload] using h2
    · simpa [Event.isRead] using h3

theorem present_shows (w : World) (d : Bool) (m : Mat) :
    (present w d m).1.any Event.isShow = !d := by
  rw [present_events]
  cases d with
  | true => rfl
  | false =>
    obtain ⟨rest, h, -⟩ := displayBody_events w m
    simp [h, Event.isShow]

/-- The events of lines 77-93, case by case. -/
theorem loadImage_events (lib : Lib) (w : World) (s : String) :
    (loadImage lib w s).1
      = if s = "" then []
        else if isURL s = true then
          (if (downloadImage lib w s).empty = true then [Event.downloadImage s]
           else [Event.downloadImage s, Event.imwrite "downloaded_image.jpg" (downloadImage lib w s)])
        else [Event.imread s] := by
  unfold loadImage
  by_cases hs : s = ""
  · simp [hs]
  · by_cases hu : isURL s = true
    · by_cases he : (downloadImage lib w s).empty = true
      · simp [hs, hu, he]
      · simp [hs, hu, he]
    · simp [hs, hu]

/-- The raster of lines 77-93, case by case. -/
theorem loadImage_raster (lib : Lib) (w : World) (s : String) :
    (loadImage lib w s).2
      = if s = "" then Mat.default
        else if isURL s = true then downloadImage lib w s
        else w.imread s := by
  unfold loadImage
  by_cases hs : s = ""
  · simp [hs]
  · by_cases hu : isURL s = true
    · by_cases he : (downloadImage lib w s).empty = true
      · simp [hs, hu, he]
      · simp [hs, hu, he]
    · simp [hs, hu]

theorem isURL_ne_empty (s : String) (h : isURL s = true) : s ≠ "" := by
  intro hs
  subst hs
  exact absurd h (by decide)

theorem synthetic_header (lib : Lib) :
    (synthetic lib).rows = 400 ∧ (synthetic lib).cols = 600 ∧ (synthetic lib).channels = 3 :=
  ⟨rfl, rfl, rfl⟩

theorem synthetic_not_empty (lib : Lib) : (synthetic lib).empty = false := by
  show ((400 * 600 : Nat) == 0) = false
  decide

theorem main_filesWritten (lib : Lib) (w : World) (argv : List String) :
    (main lib w argv).filesWritten
      = (if isURL (main lib w argv).config.image_input = true
            ∧ (downloadImage lib w (main lib w argv).config.image_input).empty = false
          then ["downloaded_image.jpg"] else [])
        ++ (if (main lib w argv).loaded.empty = true then ["synthetic_input.jpg"] else [])
        ++ ["opencv_demo_result.jpg"] := by
  unfold Run.filesWritten
  rw [main_events, List.filterMap_append, List.filterMap_append, List.filterMap_append,
    (present_no_io w _ _).1, List.append_nil, loadImage_events]
  congr 1
  congr 1
  · by_cases hs : (main lib w argv).config.image_input = ""
    · have hu : isURL "" = false := by decide
      simp [hs, hu]
    · by_cases hu : isURL (main lib w argv).config.image_input = true
      · by_cases he : (downloadImage lib w (main lib w argv).config.image_input).empty = true
        · simp [hs, hu, he, Event.written]
        · simp [hs, hu, he, Event.written]
      · simp [hs, hu, Event.written]
  · unfold resolveImage
    by_cases he : (main lib w argv).loaded.empty = true
    · simp [he, Event.written]
    · simp [he]

theorem main_io_counts (lib : Lib) (w : World) (argv : List String) :
    (main lib w argv).downloads
        = (if (main lib w argv).config.image_input ≠ ""
              ∧ isURL (main lib w argv).config.image_input = true then 1 else 0)
      ∧ (main lib w argv).reads
        = (if (main lib w argv).config.image_input ≠ ""
              ∧ isURL (main lib w argv).config.image_input = false then 1 else 0) := by
  unfold Run.downloads Run.reads
  rw [main_events, List.countP_append, List.countP_append, List.countP_append,
    List.countP_append, List.countP_append, List.countP_append,
    (present_no_io w _ _).2.1, (present_no_io w _ _).2.2, loadImage_events]
  have hres : ∀ m, (resolveImage lib m).1.countP Event.isDownload = 0
      ∧ (resolveImage lib m).1.countP Event.isRead = 0 := by
    intro m
    unfold resolveImage
    by_cases he : m.empty = true
    · simp [he, Event.isDownload, Event.isRead]
    · simp [he]
  rw [(hres _).1, (hres _).2]
  by_cases hs : (main lib w argv).config.image_input = ""
  · simp [hs, Event.isDownload, Event.isRead]
  · by_cases hu : isURL (main lib w argv).config.image_input = true
    · by_cases he : (downloadImage lib w (main lib w argv).config.image_input).empty = true
      · simp [hs, hu, he, Event.isDownload, Event.isRead]
      · simp [hs, hu, he, Event.isDownload, Event.isRead]
    · simp [hs, hu, Event.isDownload, Event.isRead]

theorem main_displayAttempted (lib : Lib) (w : World) (argv : List String) :
    (main lib w argv).displayAttempted = !(main lib w argv).config.disable_display := by
  unfold Run.displayAttempted
  rw [main_events, List.any_append, List.any_append, List.any_append, present_shows,
    loadImage_events]
  have hres : (resolveImage lib (main lib w argv).loaded).1.any Event.isShow = false := by
    unfold resolveImage
    by_cases he : (main lib w argv).loaded.empty = true
    · simp [he, Event.isShow]
    · simp [he]
  rw [hres]
  by_cases hs : (main lib w argv).config.image_input = ""
  · simp [hs, Event.isShow]
  · by_cases hu : isURL (main lib w argv).config.image_input = true
    · by_cases he : (downloadImage lib w (main lib w argv).config.image_input).empty = true
      · simp [hs, hu, he, Event.isShow]
      · simp [hs, hu, he, Event.isShow]
    · simp [hs, hu, Event.isShow]

theorem main_disable_display (lib : Lib) (w : World) (argv : List String) :
    (main lib w argv).config.disable_display
      = (envDisable w.env || (argv.drop 1).any isDisplayFlag) := by
  rw [main_config]
  unfold parseArgs
  rw [foldl_parseArg_disable_display]

/-! ## Lemmas on the download buffer -/

theorem resize_grow (v : List Nat) (n : Nat) :
    resize v (v.length + n) = v ++ List.replicate n 0 := by
  unfold resize
  rw [List.take_of_length_le (Nat.le_add_right _ _), Nat.add_sub_cancel_left]

theorem memcpy_tail (v src : List Nat) (n : Nat) (hn : src.length = n) :
    memcpy (v ++ List.replicate n 0) v.length src n = v ++ src := by
  unfold memcpy
  rw [List.take_left', List.take_of_length_le (Nat.le_of_eq hn),
    List.drop_of_length_le (by simp), List.append_nil]
  rfl

/-- One call of the callback on a buffer whose counter equals its length. -/
theorem WriteMemoryCallback_step (c : Chunk) (mem : MemoryStruct) (hwf : c.wellFormed)
    (hsize : mem.size = mem.memory.length)
    (hfit : mem.memory.length + c.contents.length < SIZE_RANGE) :
    WriteMemoryCallback c.contents c.size c.nmemb mem
      = (c.size * c.nmemb,
          { memory := mem.memory ++ c.contents,
            size := (mem.memory ++ c.contents).length }) := by
  obtain ⟨hlen, hlt⟩ := hwf
  have hold : mem.memory.length < SIZE_RANGE := Nat.lt_of_le_of_lt (Nat.le_add_right _ _) hfit
  unfold WriteMemoryCallback
  simp only [Nat.mod_eq_of_lt hlt, Nat.mod_eq_of_lt hold, hsize]
  rw [← hlen, Nat.mod_eq_of_lt hfit, resize_grow, memcpy_tail _ _ _ rfl, List.length_append]

theorem body_cons (c : Chunk) (cs : List Chunk) : body (c :: cs) = c.contents ++ body cs := by
  simp [body]

theorem deliver_from (cs : List Chunk) (mem : MemoryStruct)
    (hwf : ∀ c ∈ cs, c.wellFormed) (hsize : mem.size = mem.memory.length)
    (hfit : mem.memory.length + (body cs).length < SIZE_RANGE) :
    (deliver cs mem).2 = { memory := mem.memory ++ body cs,
                           size := (mem.memory ++ body cs).length }
      ∧ (deliver cs mem).1 = cs.map (fun c => c.size * c.nmemb) := by
  induction cs generalizing mem with
  | nil =>
    constructor
    · cases mem with
      | mk memory size =>
        simp only [deliver, body, List.map_nil, List.flatten_nil, List.append_nil]
        simp only at hsize
        rw [hsize]
    · rfl
  | cons c cs ih =>
    rw [body_cons, List.length_append] at hfit
    have hstep := WriteMemoryCallback_step c mem (hwf c (List.mem_cons_self _ _)) hsize
      (by omega)
    have hrec := ih
      { memory := mem.memory ++ c.contents, size := (mem.memory ++ c.contents).length }
      (fun d hd => hwf d (List.mem_cons_of_mem _ hd)) rfl
      (by simp only [List.length_append]; omega)
    unfold deliver
    simp only [hstep, hrec.1, hrec.2, body_cons, List.append_assoc, List.map_cons, and_self]

theorem body_length (cs : List Chunk) (hwf : ∀ c ∈ cs, c.wellFormed) :
    (body cs).length = (cs.map (fun c => c.size * c.nmemb)).sum := by
  induction cs with
  | nil => rfl
  | cons c cs ih =>
    rw [body_cons, List.length_append, List.map_cons, List.sum_cons,
      ih (fun d hd => hwf d (List.mem_cons_of_mem _ hd)), (hwf c (List.mem_cons_self _ _)).1]

/-! ## Lemmas on the colour filter -/

theorem inRange_px3 (src : Mat) (lo hi : Scalar) (r c k : Nat) (h3 : src.channels = 3) :
    (inRange src lo hi).px r c k
      = if (lo.v0 ≤ src.px r c 0 ∧ src.px r c 0 ≤ hi.v0)
            ∧ (lo.v1 ≤ src.px r c 1 ∧ src.px r c 1 ≤ hi.v1)
            ∧ (lo.v2 ≤ src.px r c 2 ∧ src.px r c 2 ≤ hi.v2)
        then 255 else 0 := by
  unfold inRange
  simp only [h3]
  have hr : List.range 3 = [0, 1, 2] := by decide
  rw [hr]
  simp only [List.all_cons, List.all_nil, Bool.and_true, Scalar.get, Bool.and_eq_true,
    decide_eq_true_eq, and_assoc]

theorem mask_or_ne_zero (p q : Prop) [Decidable p] [Decidable q] :
    ((if p then 255 else 0) ||| (if q then 255 else 0) : Nat) ≠ 0 ↔ (p ∨ q) := by
  by_cases hp : p <;> by_cases hq : q <;> simp [hp, hq]

theorem copyTo_fresh_px (src mask : Mat) (r c k : Nat) :
    (copyTo src Mat.default mask).px r c k
      = if mask.px r c 0 ≠ 0 then src.px r c k else 0 := by
  unfold copyTo
  simp only [Mat.default, ite_self]

/-! ## The claims -/

/-- C2: the image that enters the processing pipeline is the loaded raster
when that raster is not empty, and otherwise the synthetic canvas of 600
columns, 400 rows and 3 channels; the loaded raster is the default (empty)
one without input, the download for a URL and the file otherwise; the
pipeline runs on that image, which is never empty. -/
theorem pipeline_image_resolved (lib : Lib) (w : World) (argv : List String) :
    ((main lib w argv).loaded.empty = false → (main lib w argv).image = (main lib w argv).loaded)
    ∧ ((main lib w argv).loaded.empty = true →
        (main lib w argv).image = synthetic lib
        ∧ (main lib w argv).image.cols = 600 ∧ (main lib w argv).image.rows = 400
        ∧ (main lib w argv).image.channels = 3)
    ∧ (main lib w argv).loaded
        = (if (main lib w argv).config.image_input = "" then Mat.default
           else if isURL (main lib w argv).config.image_input = true then
             downloadImage lib w (main lib w argv).config.image_input
           else w.imread (main lib w argv).config.image_input)
    ∧ Mat.default.empty = true
    ∧ (main lib w argv).panels = process lib (main lib w argv).image
    ∧ (main lib w argv).image.empty = false := by
  have himg : (main lib w argv).image
      = if (main lib w argv).loaded.empty = true then synthetic lib
        else (main lib w argv).loaded := by
    rw [main_image]
    unfold resolveImage
    split <;> rfl
  refine ⟨?_, ?_, ?_, ?_, rfl, ?_⟩
  · intro h
    rw [himg, h]
    rfl
  · intro h
    rw [himg, h]
    exact ⟨rfl, rfl, rfl, rfl⟩
  · rw [main_loaded, loadImage_raster]
    rfl
  · decide
  · rw [himg]
    by_cases h : (main lib w argv).loaded.empty = true
    · rw [if_pos h]
      exact synthetic_not_empty lib
    · rw [if_neg h]
      exact Bool.eq_false_iff.mpr h

/-- C3: the result file is always written; `downloaded_image.jpg` is written
exactly when the input is a URL and the download is not empty;
`synthetic_input.jpg` is written exactly when the loaded raster is empty; no
other file is written and the two input files are never written together. -/
theorem files_written_exactly (lib : Lib) (w : World) (argv : List String) :
    "opencv_demo_result.jpg" ∈ (main lib w argv).filesWritten
    ∧ ("downloaded_image.jpg" ∈ (main lib w argv).filesWritten ↔
        (("http://".data <+: (main lib w argv).config.image_input.data
            ∨ "https://".data <+: (main lib w argv).config.image_input.data)
          ∧ (downloadImage lib w (main lib w argv).config.image_input).empty = false))
    ∧ ("synthetic_input.jpg" ∈ (main lib w argv).filesWritten ↔
        (main lib w argv).loaded.empty = true)
    ∧ (∀ f ∈ (main lib w argv).filesWritten,
        f = "opencv_demo_result.jpg" ∨ f = "downloaded_image.jpg" ∨ f = "synthetic_input.jpg")
    ∧ ¬ ("downloaded_image.jpg" ∈ (main lib w argv).filesWritten
          ∧ "synthetic_input.jpg" ∈ (main lib w argv).filesWritten) := by
  have hfiles := main_filesWritten lib w argv
  have hurl := isURL_iff (main lib w argv).config.image_input
  have hd : "downloaded_image.jpg" ∈ (main lib w argv).filesWritten ↔
      (isURL (main lib w argv).config.image_input = true
        ∧ (downloadImage lib w (main lib w argv).config.image_input).empty = false) := by
    rw [hfiles]
    by_cases hc : isURL (main lib w argv).config.image_input = true
        ∧ (downloadImage lib w (main lib w argv).config.image_input).empty = false
    · simp [hc]
    · rw [if_neg hc]
      by_cases he : (main lib w argv).loaded.empty = true
      · simp only [he, if_true, hc, iff_false]
        decide
      · simp only [he, if_false, hc, iff_false]
        decide
  have hsyn : "synthetic_input.jpg" ∈ (main lib w argv).filesWritten ↔
      (main lib w argv).loaded.empty = true := by
    rw [hfiles]
    by_cases he : (main lib w argv).loaded.empty = true
    · simp [he]
    · simp only [he, if_false, iff_false]
      by_cases hc : isURL (main lib w argv).config.image_input = true
          ∧ (downloadImage lib w (main lib w argv).config.image_input).empty = false
      · rw [if_pos hc]; decide
      · rw [if_neg hc]; decide
  refine ⟨?_, ?_, hsyn, ?_, ?_⟩
  · rw [hfiles]
    simp
  · rw [hd, hurl]
  · intro f hf
    rw [hfiles] at hf
    rcases List.mem_append.mp hf with h | h
    · rcases List.mem_append.mp h with h | h
      · split at h
        · exact Or.inr (Or.inl (List.mem_singleton.mp h))
        · exact absurd h (List.not_mem_nil f)
      · split at h
        · exact Or.inr (Or.inr (List.mem_singleton.mp h))
        · exact absurd h (List.not_mem_nil f)
    · exact Or.inl (List.mem_singleton.mp h)
  · rintro ⟨h1, h2⟩
    have hu := (hd.mp h1).1
    have hne := (hd.mp h1).2
    have hl := hsyn.mp h2
    rw [main_loaded, loadImage_raster, ← main_config lib w argv,
      if_neg (isURL_ne_empty _ hu), if_pos hu, hne] at hl
    exact absurd hl (by decide)

/-- C4: the image input that `main` works with is the last argument after
the program name that does not start with `--`, and the empty string when
there is none; an argument that starts with `--` leaves the image input as
it was, is never the image input, and the run still returns 0. -/
theorem image_input_last_non_flag (lib : Lib) (w : World) (argv : List String) :
    (main lib w argv).config.image_input
        = (((argv.drop 1).filter (fun a => decide (¬ "--".data <+: a.data))).getLast?).getD ""
    ∧ (∀ a ∈ argv.drop 1, "--".data <+: a.data → (main lib w argv).config.image_input ≠ a)
    ∧ (∀ (st : Config) (a : String), "--".data <+: a.data →
        (parseArg st a).image_input = st.image_input)
    ∧ (main lib w argv).exit = .ok 0 := by
  have h1 : (main lib w argv).config.image_input
      = (((argv.drop 1).filter (fun a => decide (¬ "--".data <+: a.data))).getLast?).getD "" := by
    rw [main_config]
    unfold parseArgs
    rw [foldl_parseArg_image_input]
  refine ⟨h1, ?_, ?_, main_exit lib w argv⟩
  · intro a _ ha heq
    rw [h1] at heq
    cases hl : ((argv.drop 1).filter (fun a => decide (¬ "--".data <+: a.data))).getLast? with
    | none =>
      rw [hl] at heq
      have : a = "" := heq.symm
      subst this
      exact absurd ha (by decide)
    | some b =>
      rw [hl] at heq
      have hb : b = a := heq
      subst hb
      have hmem := List.mem_of_getLast?_eq_some hl
      have := (List.mem_filter.mp hmem).2
      simp only [decide_eq_true_eq] at this
      exact this ha
  · intro st a ha
    rw [parseArg_image_input, if_pos ha]

/-- C5: with a non-empty image input the run makes exactly one download and
no file read when the input starts with `http://` or `https://`, and exactly
one file read and no download otherwise; with an empty image input it makes
neither. -/
theorem download_iff_url (lib : Lib) (w : World) (argv : List String) :
    ((main lib w argv).config.image_input ≠ "" →
      ((("http://".data <+: (main lib w argv).config.image_input.data
            ∨ "https://".data <+: (main lib w argv).config.image_input.data) ↔
          ((main lib w argv).downloads = 1 ∧ (main lib w argv).reads = 0))
        ∧ (¬ ("http://".data <+: (main lib w argv).config.image_input.data
            ∨ "https://".data <+: (main lib w argv).config.image_input.data) ↔
          ((main lib w argv).reads = 1 ∧ (main lib w argv).downloads = 0))))
    ∧ ((main lib w argv).config.image_input = "" →
        (main lib w argv).downloads = 0 ∧ (main lib w argv).reads = 0) := by
  obtain ⟨hd, hr⟩ := main_io_counts lib w argv
  have hurl := isURL_iff (main lib w argv).config.image_input
  constructor
  · intro hs
    rw [← hurl, hd, hr]
    by_cases hu : isURL (main lib w argv).config.image_input = true
    · simp [hs, hu]
    · simp [hs, hu]
  · intro hs
    rw [hd, hr]
    simp [hs]

/-- C6: the result window is not opened exactly when one of the variables
`CI`, `GITHUB_ACTIONS`, `DISABLE_DISPLAY` is in the environment, with any
value, or an argument after the program name is `--no-display` or `--ci`;
in particular a variable alone suffices, and an argument that is neither of
the two flags does not change the decision wherever it stands. -/
theorem display_skipped_iff (lib : Lib) (w : World) (argv : List String) :
    ((main lib w argv).displayAttempted = false ↔
        ((∃ v, ("CI", v) ∈ w.env) ∨ (∃ v, ("GITHUB_ACTIONS", v) ∈ w.env)
          ∨ (∃ v, ("DISABLE_DISPLAY", v) ∈ w.env)
          ∨ ∃ a ∈ argv.drop 1, a = "--no-display" ∨ a = "--ci"))
    ∧ (((∃ v, ("CI", v) ∈ w.env) ∨ (∃ v, ("GITHUB_ACTIONS", v) ∈ w.env)
          ∨ (∃ v, ("DISABLE_DISPLAY", v) ∈ w.env)) →
        (main lib w argv).displayAttempted = false)
    ∧ (∀ (prog b : String) (pre post : List String), b ≠ "--no-display" → b ≠ "--ci" →
        (main lib w (prog :: (pre ++ b :: post))).displayAttempted
          = (main lib w (prog :: (pre ++ post))).displayAttempted) := by
  have key : ∀ args : List String, (main lib w args).displayAttempted = false ↔
      ((∃ v, ("CI", v) ∈ w.env) ∨ (∃ v, ("GITHUB_ACTIONS", v) ∈ w.env)
        ∨ (∃ v, ("DISABLE_DISPLAY", v) ∈ w.env)
        ∨ ∃ a ∈ args.drop 1, a = "--no-display" ∨ a = "--ci") := by
    intro args
    rw [main_displayAttempted, main_disable_display, Bool.not_eq_false', Bool.or_eq_true]
    unfold envDisable
    rw [Bool.or_eq_true, Bool.or_eq_true, getenv_isSome_iff, getenv_isSome_iff,
      getenv_isSome_iff, List.any_eq_true, or_assoc, or_assoc]
    simp only [isDisplayFlag, decide_eq_true_eq]
  refine ⟨key argv, ?_, ?_⟩
  · intro h
    rw [key]
    rcases h with h | h | h
    · exact Or.inl h
    · exact Or.inr (Or.inl h)
    · exact Or.inr (Or.inr (Or.inl h))
  · intro prog b pre post hb1 hb2
    rw [main_displayAttempted, main_displayAttempted, main_disable_display,
      main_disable_display]
    have hb : isDisplayFlag b = false := by
      simp [isDisplayFlag, hb1, hb2]
    simp [List.any_append, hb]

/-- C9: `main` returns exit code 0 for every library, world (file system,
network and display outcome) and argument list; an exception raised by the
display calls does not leave the `try` statement. -/
theorem main_returns_zero (lib : Lib) (w : World) (argv : List String) :
    (main lib w argv).exit = .ok 0
    ∧ (∀ (d : Bool) (m : Mat), (present w d m).2 = .ok ()) :=
  ⟨main_exit lib w argv, fun d m => present_ok w d m⟩

/-- C10: starting from a fresh `MemoryStruct`, after the callback has taken
the chunks in arrival order (each holding `size * nmemb` bytes, the product
not overflowing, and the whole fitting the range of `size_t` as the length
of a vector does), the buffer is the concatenation of the chunks, the
counter equals the length of the buffer, which is the sum of the chunk
lengths, and each call returned `size * nmemb`. -/
theorem buffer_accumulates (cs : List Chunk) (hwf : ∀ c ∈ cs, c.wellFormed)
    (hfit : (body cs).length < SIZE_RANGE) :
    (deliver cs MemoryStruct.new).2.memory = (cs.map Chunk.contents).flatten
    ∧ (deliver cs MemoryStruct.new).2.size = (deliver cs MemoryStruct.new).2.memory.length
    ∧ (deliver cs MemoryStruct.new).2.memory.length = (cs.map (fun c => c.size * c.nmemb)).sum
    ∧ (deliver cs MemoryStruct.new).1 = cs.map (fun c => c.size * c.nmemb) := by
  have h := deliver_from cs MemoryStruct.new hwf rfl
    (by simpa [MemoryStruct.new] using hfit)
  have hmem : (deliver cs MemoryStruct.new).2.memory = body cs := by
    rw [h.1]; rfl
  have hsz : (deliver cs MemoryStruct.new).2.size = (body cs).length := by
    rw [h.1]; rfl
  refine ⟨hmem, ?_, ?_, h.2⟩
  · rw [hsz, hmem]
  · rw [hmem, body_length cs hwf]

/-- Witness of C10 on the two chunks of `brokenTransfer`. -/
theorem buffer_accumulates_witness :
    (deliver brokenTransfer.chunks MemoryStruct.new).2.memory = ppmBytes
    ∧ (deliver brokenTransfer.chunks MemoryStruct.new).2.size = 14
    ∧ (deliver brokenTransfer.chunks MemoryStruct.new).1 = [7, 7] := by
  have h := buffer_accumulates brokenTransfer.chunks (by decide) (by decide)
  exact ⟨h.1, by decide, h.2.2.2⟩

/-- C1, counterexample: in `sampleWorld` the transfer of the URL hands over
the 14 bytes of a PPM file and then fails with code 18, and `downloadImage`
returns the decoded raster of one pixel, which is not empty; so a failed
transfer does not always give an empty raster. -/
theorem failed_transfer_nonempty :
    sampleWorld.curl_easy_init = true
    ∧ (sampleWorld.curl_easy_perform "http://h/a.ppm").res ≠ CURLE_OK
    ∧ (transfer sampleWorld "http://h/a.ppm").1 = some 18
    ∧ (downloadImage sampleLib sampleWorld "http://h/a.ppm").empty = false
    ∧ ¬ (∀ (lib : Lib) (w : World) (url : String), w.curl_easy_init = true →
          (w.curl_easy_perform url).res ≠ CURLE_OK → (downloadImage lib w url).empty = true) := by
  refine ⟨rfl, by decide, rfl, by decide, ?_⟩
  intro h
  exact absurd (h sampleLib sampleWorld "http://h/a.ppm" rfl (by decide)) (by decide)

/-- C1, amended: when the transfer fails, `downloadImage` returns the empty
raster if no body byte was accumulated, and otherwise the decoder's result
on the accumulated bytes, the chunks in arrival order; so the result is
empty when nothing was received or the received bytes do not decode. -/
theorem failed_transfer_result (lib : Lib) (w : World) (url : String)
    (hinit : w.curl_easy_init = true)
    (hfail : (w.curl_easy_perform url).res ≠ CURLE_OK)
    (hwf : ∀ c ∈ (w.curl_easy_perform url).chunks, c.wellFormed)
    (hfit : (body (w.curl_easy_perform url).chunks).length < SIZE_RANGE) :
    (transfer w url).1 ≠ some CURLE_OK
    ∧ (body (w.curl_easy_perform url).chunks = [] → downloadImage lib w url = Mat.default)
    ∧ (body (w.curl_easy_perform url).chunks ≠ [] →
        downloadImage lib w url = lib.imdecode (body (w.curl_easy_perform url).chunks))
    ∧ ((body (w.curl_easy_perform url).chunks = []
          ∨ (lib.imdecode (body (w.curl_easy_perform url).chunks)).empty = true) →
        (downloadImage lib w url).empty = true) := by
  have hd := deliver_from (w.curl_easy_perform url).chunks MemoryStruct.new hwf rfl
    (by simpa [MemoryStruct.new] using hfit)
  have hchunk : (transfer w url).2
      = { memory := body (w.curl_easy_perform url).chunks,
          size := (body (w.curl_easy_perform url).chunks).length } := by
    unfold transfer
    simp only [hinit, if_true, hd.1]
    rfl
  have hres : (transfer w url).1 = some (w.curl_easy_perform url).res := by
    unfold transfer
    simp only [hinit, if_true]
  have hdl : downloadImage lib w url
      = if (body (w.curl_easy_perform url).chunks).length > 0
        then lib.imdecode (body (w.curl_easy_perform url).chunks) else Mat.default := by
    show (if (transfer w url).2.size > 0 then lib.imdecode (transfer w url).2.memory
      else Mat.default) = _
    rw [hchunk]
  have h1 : body (w.curl_easy_perform url).chunks = [] → downloadImage lib w url = Mat.default := by
    intro hb
    rw [hdl, hb]
    rfl
  have h2 : body (w.curl_easy_perform url).chunks ≠ [] →
      downloadImage lib w url = lib.imdecode (body (w.curl_easy_perform url).chunks) := by
    intro hb
    rw [hdl, if_pos (List.length_pos.mpr hb)]
  refine ⟨?_, h1, h2, ?_⟩
  · rw [hres]
    intro h
    exact hfail (Option.some.inj h)
  · intro h
    by_cases hb : body (w.curl_easy_perform url).chunks = []
    · rw [h1 hb]
      decide
    · rcases h with h | h
      · exact absurd h hb
      · rw [h2 hb]
        exact h

/-- Witness of the amended C1 on the failing transfer of `sampleWorld`. -/
theorem failed_transfer_result_witness :
    (sampleWorld.curl_easy_perform "http://h/a.ppm").res ≠ CURLE_OK
    ∧ body (sampleWorld.curl_easy_perform "http://h/a.ppm").chunks = ppmBytes
    ∧ downloadImage sampleLib sampleWorld "http://h/a.ppm" = sampleLib.imdecode ppmBytes :=
  ⟨by decide, by decide,
    (failed_transfer_result sampleLib sampleWorld "http://h/a.ppm" rfl (by decide)
      (by decide) (by decide)).2.2.1 (by decide)⟩

/-- C7: when the colour conversions and the edge detector keep the number of
rows and columns of their input, the grayscale raster, the edge map, the
contour overlay, the colour-filter result and the three-channel edge panel
all have the size of the image, both rows of the composite are twice as
wide, and the composite is twice as wide and twice as high. -/
theorem panel_sizes (lib : Lib) (image : Mat)
    (hcvt : ∀ (m : Mat) (code : ColorCode),
      (lib.cvtColor m code).rows = m.rows ∧ (lib.cvtColor m code).cols = m.cols)
    (hcanny : ∀ (m : Mat) (lo hi : Nat),
      (lib.Canny m lo hi).rows = m.rows ∧ (lib.Canny m lo hi).cols = m.cols) :
    ((process lib image).gray.cols = image.cols ∧ (process lib image).gray.rows = image.rows)
    ∧ ((process lib image).edges.cols = image.cols
        ∧ (process lib image).edges.rows = image.rows)
    ∧ ((process lib image).contour_image.cols = image.cols
        ∧ (process lib image).contour_image.rows = image.rows)
    ∧ ((process lib image).color_result.cols = image.cols
        ∧ (process lib image).color_result.rows = image.rows)
    ∧ ((process lib image).edges_color.cols = image.cols
        ∧ (process lib image).edges_color.rows = image.rows)
    ∧ ((process lib image).top_row.cols = 2 * image.cols
        ∧ (process lib image).top_row.rows = image.rows)
    ∧ ((process lib image).bottom_row.cols = 2 * image.cols
        ∧ (process lib image).bottom_row.rows = image.rows)
    ∧ ((process lib image).final_result.cols = 2 * image.cols
        ∧ (process lib image).final_result.rows = 2 * image.rows) := by
  have hgray := hcvt image ColorCode.BGR2GRAY
  have hedges := hcanny (lib.cvtColor image ColorCode.BGR2GRAY) 50 150
  have hec := hcvt (lib.Canny (lib.cvtColor image ColorCode.BGR2GRAY) 50 150) ColorCode.GRAY2BGR
  have e1 : (process lib image).edges.cols = image.cols := hedges.2.trans hgray.2
  have e2 : (process lib image).edges.rows = image.rows := hedges.1.trans hgray.1
  have c1 : (process lib image).edges_color.cols = image.cols := hec.2.trans e1
  have c2 : (process lib image).edges_color.rows = image.rows := hec.1.trans e2
  refine ⟨⟨hgray.2, hgray.1⟩, ⟨e1, e2⟩, ⟨rfl, rfl⟩, ⟨rfl, rfl⟩, ⟨c1, c2⟩, ⟨?_, rfl⟩, ⟨?_, rfl⟩,
    ⟨?_, ?_⟩⟩
  · show image.cols + (process lib image).edges_color.cols = 2 * image.cols
    rw [c1]; omega
  · show image.cols + image.cols = 2 * image.cols
    omega
  · show image.cols + (process lib image).edges_color.cols = 2 * image.cols
    rw [c1]; omega
  · show image.rows + image.rows = 2 * image.rows
    omega

/-- Witness of C7: `sampleLib` keeps sizes, and on the 3 by 2 `sampleImage`
the composite is 6 wide and 4 high. -/
theorem panel_sizes_witness :
    (process sampleLib sampleImage).edges_color.cols = 3
    ∧ (process sampleLib sampleImage).final_result.cols = 6
    ∧ (process sampleLib sampleImage).final_result.rows = 4 := by
  have h := panel_sizes sampleLib sampleImage
    (by intro m code; cases code <;> exact ⟨rfl, rfl⟩)
    (by intro m lo hi; exact ⟨rfl, rfl⟩)
  exact ⟨h.2.2.2.2.1.1, h.2.2.2.2.2.2.2.1, h.2.2.2.2.2.2.2.2⟩

/-- C8: when the HSV raster has three channels, each pixel of the
colour-filter result equals the pixel of the image if the HSV value at that
position has H in 100..130 or in 40..80, S in 50..255 and V in 50..255, and
is zero in every channel otherwise; the result has the header of the image;
and when no position of the image has H in either range, every pixel of the
result is zero. -/
theorem color_filter_pixel (lib : Lib) (image : Mat)
    (h3 : (lib.cvtColor image ColorCode.BGR2HSV).channels = 3) :
    (∀ r c k : Nat, (process lib image).color_result.px r c k
        = if ((100 ≤ (lib.cvtColor image ColorCode.BGR2HSV).px r c 0
                ∧ (lib.cvtColor image ColorCode.BGR2HSV).px r c 0 ≤ 130)
              ∨ (40 ≤ (lib.cvtColor image ColorCode.BGR2HSV).px r c 0
                ∧ (lib.cvtColor image ColorCode.BGR2HSV).px r c 0 ≤ 80))
            ∧ (50 ≤ (lib.cvtColor image ColorCode.BGR2HSV).px r c 1
                ∧ (lib.cvtColor image ColorCode.BGR2HSV).px r c 1 ≤ 255)
            ∧ (50 ≤ (lib.cvtColor image ColorCode.BGR2HSV).px r c 2
                ∧ (lib.cvtColor image ColorCode.BGR2HSV).px r c 2 ≤ 255)
          then image.px r c k else 0)
    ∧ ((process lib image).color_result.rows = image.rows
        ∧ (process lib image).color_result.cols = image.cols
        ∧ (process lib image).color_result.channels = image.channels)
    ∧ ((∀ r c : Nat, r < image.rows → c < image.cols →
          ¬ ((100 ≤ (lib.cvtColor image ColorCode.BGR2HSV).px r c 0
                ∧ (lib.cvtColor image ColorCode.BGR2HSV).px r c 0 ≤ 130)
              ∨ (40 ≤ (lib.cvtColor image ColorCode.BGR2HSV).px r c 0
                ∧ (lib.cvtColor image ColorCode.BGR2HSV).px r c 0 ≤ 80))) →
        ∀ r c k : Nat, r < image.rows → c < image.cols →
          (process lib image).color_result.px r c k = 0) := by
  have hpx : ∀ r c k : Nat, (process lib image).color_result.px r c k
        = if ((100 ≤ (lib.cvtColor image ColorCode.BGR2HSV).px r c 0
                ∧ (lib.cvtColor image ColorCode.BGR2HSV).px r c 0 ≤ 130)
              ∨ (40 ≤ (lib.cvtColor image ColorCode.BGR2HSV).px r c 0
                ∧ (lib.cvtColor image ColorCode.BGR2HSV).px r c 0 ≤ 80))
            ∧ (50 ≤ (lib.cvtColor image ColorCode.BGR2HSV).px r c 1
                ∧ (lib.cvtColor image ColorCode.BGR2HSV).px r c 1 ≤ 255)
            ∧ (50 ≤ (lib.cvtColor image ColorCode.BGR2HSV).px r c 2
                ∧ (lib.cvtColor image ColorCode.BGR2HSV).px r c 2 ≤ 255)
          then image.px r c k else 0 := by
    intro r c k
    show (copyTo image Mat.default
      (bitwise_or
        (inRange (lib.cvtColor image ColorCode.BGR2HSV) { v0 := 100, v1 := 50, v2 := 50 }
          { v0 := 130, v1 := 255, v2 := 255 })
        (inRange (lib.cvtColor image ColorCode.BGR2HSV) { v0 := 40, v1 := 50, v2 := 50 }
          { v0 := 80, v1 := 255, v2 := 255 }))).px r c k = _
    rw [copyTo_fresh_px]
    show (if (inRange (lib.cvtColor image ColorCode.BGR2HSV) { v0 := 100, v1 := 50, v2 := 50 }
          { v0 := 130, v1 := 255, v2 := 255 }).px r c 0
        ||| (inRange (lib.cvtColor image ColorCode.BGR2HSV) { v0 := 40, v1 := 50, v2 := 50 }
          { v0 := 80, v1 := 255, v2 := 255 }).px r c 0 ≠ 0 then image.px r c k else 0) = _
    rw [inRange_px3 _ _ _ r c 0 h3, inRange_px3 _ _ _ r c 0 h3]
    simp only [mask_or_ne_zero]
    apply if_congr _ rfl rfl
    constructor
    · rintro (⟨hh, hs, hv⟩ | ⟨hh, hs, hv⟩)
      · exact ⟨Or.inl hh, hs, hv⟩
      · exact ⟨Or.inr hh, hs, hv⟩
    · rintro ⟨hh | hh, hs, hv⟩
      · exact Or.inl ⟨hh, hs, hv⟩
      · exact Or.inr ⟨hh, hs, hv⟩
  refine ⟨hpx, ⟨rfl, rfl, rfl⟩, ?_⟩
  intro hno r c k hr hc
  rw [hpx, if_neg]
  intro h
  exact hno r c hr hc h.1

/-- Witness of C8 on `sampleImage`, whose HSV raster under `sampleLib` is the
image itself: the pixel at row 1, column 1 has the value (50, 51, 52) and is
kept, the pixel at row 0, column 0 has the value (0, 1, 2) and is black. -/
theorem color_filter_pixel_witness :
    (sampleLib.cvtColor sampleImage ColorCode.BGR2HSV).channels = 3
    ∧ (process sampleLib sampleImage).color_result.px 1 1 2 = 52
    ∧ (process sampleLib sampleImage).color_result.px 0 0 2 = 0 := by
  have h := (color_filter_pixel sampleLib sampleImage rfl).1
  refine ⟨rfl, ?_, ?_⟩
  · rw [h 1 1 2]; decide
  · rw [h 0 0 2]; decide

/-- Witness of C5: a URL input gives one download and no read, a path gives
one read and no download. -/
theorem download_iff_url_witness :
    ((main sampleLib sampleWorld ["prog", "http://h/a.ppm"]).downloads = 1
      ∧ (main sampleLib sampleWorld ["prog", "http://h/a.ppm"]).reads = 0)
    ∧ ((main sampleLib sampleWorld ["prog", "a.png"]).reads = 1
      ∧ (main sampleLib sampleWorld ["prog", "a.png"]).downloads = 0) :=
  ⟨((download_iff_url sampleLib sampleWorld ["prog", "http://h/a.ppm"]).1 (by decide)).1.mp
      (by decide),
    ((download_iff_url sampleLib sampleWorld ["prog", "a.png"]).1 (by decide)).2.mp
      (by decide)⟩

/-! ## Sample runs -/

theorem sample_parse :
    parseArgs [] ["prog", "a.png", "--ci", "--x", "b.png", "--y"]
      = { disable_display := true, image_input := "b.png" } := by decide

theorem sample_find :
    find "abc--" "--" = 3 ∧ find "" "--" = npos ∧ find "--" "--" = 0
      ∧ isURL "https://x" = true ∧ isURL "xhttps://x" = false := by decide

theorem sample_run_url :
    (main sampleLib sampleWorld ["prog", "http://h/a.ppm"]).filesWritten
      = ["downloaded_image.jpg", "opencv_demo_result.jpg"] := by decide

theorem sample_run_file :
    (main sampleLib sampleWorld ["prog", "a.png"]).filesWritten
      = ["opencv_demo_result.jpg"] := by decide

theorem sample_run_synthetic :
    (main sampleLib sampleWorld ["prog"]).filesWritten
      = ["synthetic_input.jpg", "opencv_demo_result.jpg"]
    ∧ (main sampleLib sampleWorld ["prog"]).image.cols = 600
    ∧ (main sampleLib sampleWorld ["prog"]).displayAttempted = true
    ∧ (main sampleLib sampleWorld ["prog", "--ci"]).displayAttempted = false := by decide

end OpencvDemo
